import Mathlib

set_option maxRecDepth 100000

/-!
Shallow embedding of `blackbirdpy.py` (Blackbird Pie HTML tweet embedder).

Text is modelled as `List Char`.  The Python `re` patterns used by the
source are hand-compiled to deterministic scanners below; each definition's
doc comment names the source function and pattern it embeds and records the
regex-semantics facts the compilation relies on (alternation order,
greediness, semantics of `^`, `$`, `\b` and of `re.sub` / `re.match`).
Python 2 `str` patterns are ASCII: `\w` is `[a-zA-Z0-9_]`,
`\s` is `[ \t\n\r\f\v]`.
-/

/-- Python 2 ASCII `\w` character class: `[a-zA-Z0-9_]`. -/
def isWordChar (c : Char) : Bool :=
  (('a' ≤ c && c ≤ 'z') || ('A' ≤ c && c ≤ 'Z') || ('0' ≤ c && c ≤ '9') || c = '_')

/-- Python 2 ASCII `\s` character class: `[ \t\n\r\f\v]`. -/
def isSpaceChar (c : Char) : Bool :=
  (c = ' ' || c = '\t' || c = '\n' || c = '\r' || c = '\x0c' || c = '\x0b')

/-- Substring test on character lists (`pat` occurs contiguously in `s`). -/
def hasSubstr (pat : List Char) : List Char → Bool
  | [] => pat.isEmpty
  | c :: t => pat.isPrefixOf (c :: t) || hasSubstr pat t

/-!
section: `re.sub` scanner

`re.sub` scans the subject left to right.  At each position it tries the
pattern; on a match it emits the replacement and resumes right after the
matched span (our patterns never match the empty string, each match
consumes at least one character); on a failure it emits one character and
advances one position.  `^` (no `re.MULTILINE`) matches only at position 0
of the subject, hence the `atStart` flag, which is true only for the very
first attempt.

`matchAt atStart s` returns `some (replacement, rest)` when the pattern
matches a prefix of `s` (`rest` is the un-consumed remainder), `none`
otherwise.  Fuel starts at the subject length; every step either consumes
at least one subject character (match case) or exactly one (failure case),
so the fuel never runs out before the subject does.
-/

def subScanF (matchAt : Bool → List Char → Option (List Char × List Char)) :
    Nat → Bool → List Char → List Char
  | 0, _, s => s
  | _ + 1, _, [] => []
  | fuel + 1, atStart, c :: t =>
    match matchAt atStart (c :: t) with
    | some (repl, rest) => repl ++ subScanF matchAt fuel false rest
    | none => c :: subScanF matchAt fuel false t

def reSub (matchAt : Bool → List Char → Option (List Char × List Char))
    (s : List Char) : List Char :=
  subScanF matchAt s.length true s

/-!
section: The three linkify passes (source lines 45-57)

All three patterns begin with the group `(^|[^\w])`; `re` tries the
alternatives left to right, so `^` (empty, only at position 0) is tried
before `[^\w]` (one non-word character, kept by the replacement via `\1`).

In `(^|[^\w])@(\w+)\b` the trailing `\b` is redundant: `\w+` is greedy, so
the character after the match (if any) is a non-word character and the
word boundary always holds.  Greedy `\w+` never needs backtracking here
because nothing follows it except `\b`.
-/

/-- The replacement `re.sub` builds for a mention `@w` (without the kept
boundary character): `<a href="http://twitter.com/w">@w</a>`. -/
def mentionAnchor (w : List Char) : List Char :=
  ("<a href=\"http://twitter.com/").data ++ w ++ ("\">@").data ++ w ++ ("</a>").data

/-- Matches `@(\w+)\b` at the head of `t`; `g1` is the text captured by the
leading group (empty for the `^` branch, one character for `[^\w]`). -/
def mentionCore (g1 t : List Char) : Option (List Char × List Char) :=
  match t with
  | c :: u =>
    if c = '@' then
      let w := u.takeWhile isWordChar
      if w.isEmpty then none
      else some (g1 ++ mentionAnchor w, u.dropWhile isWordChar)
    else none
  | [] => none

/-- One attempt of the pattern `(^|[^\w])@(\w+)\b` at the current position. -/
def matchMentionAt (atStart : Bool) (s : List Char) : Option (List Char × List Char) :=
  (if atStart then mentionCore [] s else none).orElse (fun _ =>
    match s with
    | c :: t => if isWordChar c then none else mentionCore [c] t
    | [] => none)

/-- Source `wrap_user_mention_with_link` (line 45):
`re.sub(r'(^|[^\w])@(\w+)\b', r'\1<a href="http://twitter.com/\2">@\2</a>', text)`. -/
def wrap_user_mention_with_link (s : List Char) : List Char :=
  reSub matchMentionAt s

/-- The replacement for a hashtag `#w`:
`<a href="http://twitter.com/search?q=w">#w</a>`. -/
def hashtagAnchor (w : List Char) : List Char :=
  ("<a href=\"http://twitter.com/search?q=").data ++ w ++ ("\">#").data ++ w ++ ("</a>").data

/-- Matches `#(\w+)\b` at the head of `t`. -/
def hashtagCore (g1 t : List Char) : Option (List Char × List Char) :=
  match t with
  | c :: u =>
    if c = '#' then
      let w := u.takeWhile isWordChar
      if w.isEmpty then none
      else some (g1 ++ hashtagAnchor w, u.dropWhile isWordChar)
    else none
  | [] => none

/-- One attempt of the pattern `(^|[^\w])#(\w+)\b` at the current position. -/
def matchHashtagAt (atStart : Bool) (s : List Char) : Option (List Char × List Char) :=
  (if atStart then hashtagCore [] s else none).orElse (fun _ =>
    match s with
    | c :: t => if isWordChar c then none else hashtagCore [c] t
    | [] => none)

/-- Source `wrap_hashtag_with_link` (line 50):
`re.sub(r'(^|[^\w])#(\w+)\b', r'\1<a href="http://twitter.com/search?q=\2">#\2</a>', text)`. -/
def wrap_hashtag_with_link (s : List Char) : List Char :=
  reSub matchHashtagAt s

/-- The literal `http://`. -/
def httpLit : List Char := ("http://").data

/-- The replacement for a raw URL `u`: `<a href="u">u</a>`. -/
def httpAnchor (u : List Char) : List Char :=
  ("<a href=\"").data ++ u ++ ("\">").data ++ u ++ ("</a>").data

/-- Matches `(http://[^\s]+)` at the head of `t`.  `[^\s]+` is greedy and
nothing follows it, so it takes the maximal non-whitespace run. -/
def httpCore (g1 t : List Char) : Option (List Char × List Char) :=
  if httpLit.isPrefixOf t then
    let u := t.drop 7
    let ns := u.takeWhile (fun c => !isSpaceChar c)
    if ns.isEmpty then none
    else some (g1 ++ httpAnchor (httpLit ++ ns), u.dropWhile (fun c => !isSpaceChar c))
  else none

/-- One attempt of the pattern `(^|[^\w])(http://[^\s]+)` at the current position. -/
def matchHttpAt (atStart : Bool) (s : List Char) : Option (List Char × List Char) :=
  (if atStart then httpCore [] s else none).orElse (fun _ =>
    match s with
    | c :: t => if isWordChar c then none else httpCore [c] t
    | [] => none)

/-- Source `wrap_http_with_link` (line 55):
`re.sub(r'(^|[^\w])(http://[^\s]+)', r'\1<a href="\2">\2</a>', text)`. -/
def wrap_http_with_link (s : List Char) : List Char :=
  reSub matchHttpAt s

/-- Source line 102: `tweet_json['text'].replace('\n', ' ')`.  For a
one-character pattern and one-character replacement, Python `str.replace`
is exactly the character map. -/
def replaceNL (s : List Char) : List Char :=
  s.map (fun c => if c = '\n' then ' ' else c)

/-- Source lines 99-105: the linkified tweet body.  The code nests the
calls as `wrap_user_mention_with_link(wrap_hashtag_with_link(
wrap_http_with_link(text.replace('\n', ' '))))`, so the raw-URL pass runs
first and the mention pass runs last. -/
def linkifyBody (t : List Char) : List Char :=
  wrap_user_mention_with_link (wrap_hashtag_with_link (wrap_http_with_link (replaceNL t)))

/-!
section: ID extraction (source lines 73-79)

`tweet_id_from_tweet_url` runs
`re.match(r'^http://twitter\.com/\w+/status(?:es)?/(\d+)$', tweet_url)`
and returns group 1, raising `ValueError('Invalid tweet URL: ' + url)` when
there is no match (`match` is `None` and `.group` raises `AttributeError`).

Compilation facts: `re.match` anchors at position 0 only.  `\w+` is greedy
and `/` is a non-word character, so the user segment is the maximal word
run and no backtracking arises.  For `(?:es)?`: if the text after `status`
starts with `es` the optional group must be taken (the alternative needs
`/`, but the next character is `e`); otherwise it cannot be.  `\d+` is
greedy; `$` (no `re.MULTILINE`) matches at the end of the string or just
before a newline that is the last character, and giving back digits cannot
make `$` match, so the digit group is the maximal digit run and the
remainder must be `[]` or `['\n']`.
-/

/-- Exceptions the orchestrator can surface.  `valueError` and `keyError`
are the Python exceptions the source actually raises (lines 79 and the
dict subscripts in `embed_tweet_html`); `typeError` models
`datetime.datetime(*None[:6])` when `parsedate_tz` fails; `fetchError` and
`malformedRecord` are the error kinds named by the specification — the
code never constructs them, they exist so that claims about them can be
stated. -/
inductive PyErr where
  | valueError (msg : List Char)
  | keyError (key : List Char)
  | typeError (msg : List Char)
  | fetchError (msg : List Char)
  | malformedRecord (msg : List Char)
deriving DecidableEq, Repr

/-- Whether an error is one of the failure kinds the specification names
for fetch/record problems (`FetchError` / `MalformedRecord`). -/
def PyErr.isSpecFailureKind : PyErr → Bool
  | .fetchError _ => true
  | .malformedRecord _ => true
  | _ => false

def urlLit : List Char := ("http://twitter.com/").data

def statusLit : List Char := ("/status").data

def esLit : List Char := ("es").data

/-- Stage `/(\d+)$` of the pattern: a slash, the greedy digit group, then
`$` (end of string, or one final newline). -/
def reMatchSlashDigits : List Char → Option (List Char)
  | c :: r5 =>
    if c = '/' then
      if (r5.takeWhile Char.isDigit).isEmpty then none
      else if (r5.dropWhile Char.isDigit).isEmpty ||
              r5.dropWhile Char.isDigit = [('\n' : Char)] then
        some (r5.takeWhile Char.isDigit)
      else none
    else none
  | [] => none

/-- Stage `(?:es)?/(\d+)$`: the optional group must be taken exactly when
the text starts with `es` (the alternative needs `/` next). -/
def reMatchAfterStatus (r3 : List Char) : Option (List Char) :=
  reMatchSlashDigits (if esLit.isPrefixOf r3 then r3.drop 2 else r3)

/-- Stage `/status(?:es)?/(\d+)$`. -/
def reMatchAfterUser (r2 : List Char) : Option (List Char) :=
  if statusLit.isPrefixOf r2 then reMatchAfterStatus (r2.drop 7) else none

/-- Stage `\w+/status(?:es)?/(\d+)$`: the greedy, backtrack-free user
segment (word characters cannot overlap the following `/`). -/
def reMatchAfterHost (r1 : List Char) : Option (List Char) :=
  if (r1.takeWhile isWordChar).isEmpty then none
  else reMatchAfterUser (r1.dropWhile isWordChar)

/-- The anchored match of `^http://twitter\.com/\w+/status(?:es)?/(\d+)$`
against `s`, returning group 1 on success. -/
def reMatchTweetUrl (s : List Char) : Option (List Char) :=
  if urlLit.isPrefixOf s then reMatchAfterHost (s.drop 19) else none

/-- Source `tweet_id_from_tweet_url` (line 73). -/
def tweet_id_from_tweet_url (s : List Char) : Except PyErr (List Char) :=
  match reMatchTweetUrl s with
  | some id => Except.ok id
  | none => Except.error (PyErr.valueError (("Invalid tweet URL: ").data ++ s))

/-- Structural description of the strings accepted by the source pattern:
literal scheme and host, a nonempty word-character user segment,
`/status` or `/statuses`, a slash, a nonempty digit group (the extracted
ID), and optionally one final newline (admitted by Python's `$`). -/
def TweetUrlShape (s id : List Char) : Prop :=
  ∃ user es nl : List Char,
    (∀ c ∈ user, isWordChar c = true) ∧ user ≠ [] ∧
    (∀ c ∈ id, c.isDigit = true) ∧ id ≠ [] ∧
    (es = [] ∨ es = ("es").data) ∧
    (nl = [] ∨ nl = [('\n' : Char)]) ∧
    s = ("http://twitter.com/").data ++ user ++ ("/status").data ++ es ++
        [('/' : Char)] ++ id ++ nl

/-!
section: Timestamps (source lines 60-70)

`timestamp_string_to_datetime` parses with `email.utils.parsedate_tz`
(standard library; modelled below on the fixed
`<weekday> <month> <day> <H:MM:SS> <±HHMM> <year>` layout the API serves)
and computes `datetime.datetime(*tm_array[:6]) -
datetime.timedelta(seconds=tm_array[-1])`.

Python naive `datetime` values form a calendar: they are in bijection with
points of the proleptic Gregorian timeline, and `+`/`-` of a `timedelta`
and `==` agree with the corresponding integer operations on seconds.  We
therefore represent a `datetime` value by its instant: the number of
seconds since 0001-01-01T00:00:00 (an `Int`; all values arising here are
nonnegative).  `datetime.datetime(y, mo, d, h, mi, s)` is `instantOfCivil`
and `strftime` recovers the civil fields with `civilOfSeconds`.
-/

/-- Digits of a numeral string, most significant first. -/
def natOfDigits (l : List Char) : Nat :=
  l.foldl (fun a c => a * 10 + (c.toNat - 48)) 0

/-- Splits on runs of whitespace, dropping empty fields: Python `str.split()`. -/
def splitWSAux : List Char → List (List Char)
  | [] => [[]]
  | c :: t =>
    let r := splitWSAux t
    if isSpaceChar c then [] :: r
    else
      match r with
      | [] => [[c]]
      | w :: ws => (c :: w) :: ws

def splitWS (s : List Char) : List (List Char) :=
  (splitWSAux s).filter (fun w => !w.isEmpty)

/-- Splits on a single character, keeping empty fields: Python `str.split(c)`. -/
def splitChAux (c0 : Char) : List Char → List (List Char)
  | [] => [[]]
  | c :: t =>
    let r := splitChAux c0 t
    if c = c0 then [] :: r
    else
      match r with
      | [] => [[c]]
      | w :: ws => (c :: w) :: ws

def toLowerL (l : List Char) : List Char := l.map Char.toLower

def daynamesL : List (List Char) :=
  [("mon").data, ("tue").data, ("wed").data, ("thu").data,
   ("fri").data, ("sat").data, ("sun").data]

def monthnamesL : List (List Char) :=
  [("jan").data, ("feb").data, ("mar").data, ("apr").data, ("may").data, ("jun").data,
   ("jul").data, ("aug").data, ("sep").data, ("oct").data, ("nov").data, ("dec").data]

/-- The parsed fields of a timestamp: civil date-time plus the declared
UTC offset in seconds. -/
structure ParsedTz where
  year : Nat
  month : Nat
  day : Nat
  hour : Nat
  minute : Nat
  second : Nat
  tzoffset : Int
deriving DecidableEq, Repr

/-- Model of `email.utils.parsedate_tz` (Python standard library, outside
this repository) on the fixed layout
`<weekday> <month> <day> <H:MM:SS> <±HHMM> <year>` that the Twitter API
produces: split on whitespace, drop the weekday token, read the month by
name (case-insensitive), the day/time/year as decimal fields, and the
`±HHMM` zone as `sign * (HH*3600 + MM*60)` seconds. -/
def parsedate_tz (s : List Char) : Option ParsedTz :=
  match splitWS s with
  | [wd, mon, dd, tm, tz, yy] =>
    if daynamesL.contains (toLowerL wd) then
      let mi := monthnamesL.indexOf (toLowerL mon)
      if mi < 12 then
        if !dd.isEmpty && dd.all Char.isDigit then
          match splitChAux ':' tm with
          | [hh, mm2, ss] =>
            if (!hh.isEmpty && hh.all Char.isDigit) &&
               (!mm2.isEmpty && mm2.all Char.isDigit) &&
               (!ss.isEmpty && ss.all Char.isDigit) then
              (match tz with
               | sc :: tzd =>
                 if (sc = '+' || sc = '-') && (tzd.length = 4 && tzd.all Char.isDigit) then
                   if !yy.isEmpty && yy.all Char.isDigit then
                     let n := natOfDigits tzd
                     some ⟨natOfDigits yy, mi + 1, natOfDigits dd,
                           natOfDigits hh, natOfDigits mm2, natOfDigits ss,
                           (if sc = '-' then (-1 : Int) else 1) *
                             ((n / 100) * 3600 + (n % 100) * 60)⟩
                   else none
                 else none
               | [] => none)
            else none
          | _ => none
        else none
      else none
    else none
  | _ => none

/-- Proleptic Gregorian leap-year rule. -/
def isLeapYear (y : Nat) : Bool :=
  (y % 4 == 0 && y % 100 != 0) || y % 400 == 0

/-- Days in the months strictly before month `m` (1-based) of a common
year, plus the leap correction. -/
def daysBeforeMonth (leap : Bool) (m : Nat) : Nat :=
  let base := ([0, 31, 59, 90, 120, 151, 181, 212, 243, 273, 304, 334].getD (m - 1) 0)
  if 2 < m ∧ leap = true then base + 1 else base

/-- Days from 0001-01-01 (day 0) to the civil date `y-m-d`. -/
def daysFromCivil (y m d : Nat) : Nat :=
  (y - 1) * 365 + ((y - 1) / 4 + (y - 1) / 400 - (y - 1) / 100) +
    daysBeforeMonth (isLeapYear y) m + (d - 1)

/-- The instant (seconds since 0001-01-01T00:00:00) of a civil date-time:
the model of the `datetime.datetime` constructor. -/
def instantOfCivil (y m d h mi s : Nat) : Int :=
  ((daysFromCivil y m d * 86400 + h * 3600 + mi * 60 + s : Nat) : Int)

/-- Source `timestamp_string_to_datetime` (line 60):
`datetime.datetime(*tm_array[:6]) - datetime.timedelta(seconds=tm_array[-1])`
(`none` models `parsedate_tz` returning `None`, on which the source would
raise a `TypeError`). -/
def timestamp_string_to_datetime (text : List Char) : Option Int :=
  (parsedate_tz text).map (fun p =>
    instantOfCivil p.year p.month p.day p.hour p.minute p.second - p.tzoffset)

/-- Civil date of a day number (inverse of `daysFromCivil`), by the
standard era-decomposition algorithm over the 146097-day Gregorian cycle. -/
def civilOfDays (z : Nat) : Nat × Nat × Nat :=
  let zs := z + 306
  let era := zs / 146097
  let doe := zs % 146097
  let yoe := ((doe + doe / 36524) - (doe / 1460 + doe / 146096)) / 365
  let doy := doe - ((365 * yoe + yoe / 4) - yoe / 100)
  let mp := (5 * doy + 2) / 153
  let d := (doy - (153 * mp + 2) / 5) + 1
  let m := if mp < 10 then mp + 3 else mp - 9
  (era * 400 + yoe + (if m ≤ 2 then 1 else 0), m, d)

/-- Civil fields of an instant. -/
def civilOfSeconds (n : Nat) : Nat × Nat × Nat × Nat × Nat × Nat :=
  match civilOfDays (n / 86400) with
  | (y, m, d) => (y, m, d, n % 86400 / 3600, n % 86400 % 3600 / 60, n % 60)

def weekdayNames : List (List Char) :=
  [("Mon").data, ("Tue").data, ("Wed").data, ("Thu").data,
   ("Fri").data, ("Sat").data, ("Sun").data]

def monthAbbrevs : List (List Char) :=
  [("Jan").data, ("Feb").data, ("Mar").data, ("Apr").data, ("May").data, ("Jun").data,
   ("Jul").data, ("Aug").data, ("Sep").data, ("Oct").data, ("Nov").data, ("Dec").data]

def pad2 (n : Nat) : List Char :=
  if n < 10 then '0' :: (Nat.repr n).data else (Nat.repr n).data

/-- `dt.strftime('%I:%M %p %a %b %d, %Y')` (source line 70): zero-padded
12-hour clock and minute, AM/PM, abbreviated weekday and month names,
zero-padded day, year.  Day 0 of the timeline (0001-01-01) is a Monday. -/
def strftimeEasy (n : Nat) : List Char :=
  match civilOfSeconds n with
  | (y, m, d, h, mi, _) =>
    let h12 := if h % 12 = 0 then 12 else h % 12
    let ap := if h < 12 then ("AM").data else ("PM").data
    pad2 h12 ++ [':'] ++ pad2 mi ++ [' '] ++ ap ++ [' '] ++
      (weekdayNames.getD (n / 86400 % 7) []) ++ [' '] ++
      (monthAbbrevs.getD (m - 1) []) ++ [' '] ++ pad2 d ++ [','] ++ [' '] ++
      (Nat.repr y).data

/-!
`re.sub(r'(^| +)0', r'\1', ...)` (source line 70).  The pattern matches a
zero at position 0 (`^` branch, tried first) or a maximal-then-backtracked
run of spaces followed by a zero; the replacement keeps the captured
spaces and deletes the zero.  Scanning is left to right and resumes after
each match, and spaces are never consumed without a following zero (if the
character after a space run is not `0`, the attempt fails wherever in the
run it starts), so the substitution deletes exactly those zeros that stand
at position 0 or right after a space, scanning left to right.
-/

def subZerosLoop : List Char → List Char
  | [] => []
  | ' ' :: '0' :: t => ' ' :: subZerosLoop t
  | c :: t => c :: subZerosLoop t

def subZeros (s : List Char) : List Char :=
  match s with
  | '0' :: t => subZerosLoop t
  | t => subZerosLoop t

/-- Source `easy_to_read_timestamp_string` (line 67):
`re.sub(r'(^| +)0', r'\1', dt.strftime('%I:%M %p %a %b %d, %Y'))`. -/
def easy_to_read_timestamp_string (n : Nat) : List Char :=
  subZeros (strftimeEasy n)

/-!
section: Template and orchestrator (source lines 39-42 and 82-131)

`TWEET_EMBED_HTML.format(...)` substitutes named fields into a fixed
template; we model the template as the alternating list of its literal
pieces (with `{{`/`}}` un-escaped to literal braces, written `\x7b`/`\x7d`)
and field slots.  The `format` call is also passed `profileTextColor`,
`profileLinkColor` and `utcOffset`, which have no slot in the template;
their dictionary lookups still run (and can raise `KeyError`), which the
orchestrator below performs in the source's evaluation order.
-/

inductive TField where
  | id | tweetURL | screenName | realName | tweetText | source | profilePic
  | profileBackgroundColor | profileBackgroundImage | timeStamp | easyTimeStamp
  | bbpBoxCss
deriving DecidableEq, Repr

inductive Seg where
  | lit (s : String)
  | slot (f : TField)

/-- Source `TWEET_EMBED_HTML` (lines 39-42). -/
def TWEET_EMBED_HTML : List Seg :=
  [.lit "<!-- ", .slot .tweetURL,
   .lit " -->\n<style type='text/css'>.bbpBox", .slot .id,
   .lit " \x7b", .slot .bbpBoxCss,
   .lit "background:url(", .slot .profileBackgroundImage,
   .lit ") #", .slot .profileBackgroundColor,
   .lit ";padding:20px;\x7d p.bbpTweet\x7bbackground:#fff;padding:10px 12px 10px 12px;margin:0;min-height:48px;color:#000;font-size:18px !important;line-height:22px;-moz-border-radius:5px;-webkit-border-radius:5px\x7d p.bbpTweet span.metadata\x7bdisplay:block;width:100%;clear:both;margin-top:8px;padding-top:12px;height:40px;border-top:1px solid #fff;border-top:1px solid #e6e6e6\x7d p.bbpTweet span.metadata span.author\x7bline-height:19px\x7d p.bbpTweet span.metadata span.author img\x7bfloat:left;margin:0 7px 0 0px;width:38px;height:38px\x7d p.bbpTweet span.timestamp\x7bfont-size:12px;display:block\x7d</style>\n<div class='bbpBox",
   .slot .id,
   .lit "'><p class='bbpTweet'>", .slot .tweetText,
   .lit "<span class='timestamp'><a title='", .slot .timeStamp,
   .lit "' href='", .slot .tweetURL,
   .lit "'>", .slot .easyTimeStamp,
   .lit "</a> via ", .slot .source,
   .lit "</span><span class='metadata'><span class='author'><a href='http://twitter.com/",
   .slot .screenName,
   .lit "'><img src='", .slot .profilePic,
   .lit "' /></a><strong><a href='http://twitter.com/", .slot .screenName,
   .lit "'>", .slot .realName,
   .lit "</a></strong><br/>", .slot .screenName,
   .lit "</span></span></p></div>\n<!-- end of tweet -->"]

/-- `str.format` over the template: literal pieces stay, slots are
replaced by the field values. -/
def renderTemplate (env : TField → List Char) : List Char :=
  (TWEET_EMBED_HTML.map (fun g =>
    match g with
    | .lit s => s.data
    | .slot f => env f)).foldr (· ++ ·) []

/-- The `user` sub-dictionary of the fetched record.  Field values are
modelled as text (the only use of the numeric `utc_offset` is a template
argument without a slot).  `none` models an absent key. -/
structure UserJson where
  screen_name : Option (List Char)
  name : Option (List Char)
  profile_image_url : Option (List Char)
  profile_background_color : Option (List Char)
  profile_background_image_url : Option (List Char)
  profile_text_color : Option (List Char)
  profile_link_color : Option (List Char)
  utc_offset : Option (List Char)

/-- The fetched record (`json.loads` result of the API response). -/
structure TweetJson where
  text : Option (List Char)
  created_at : Option (List Char)
  source : Option (List Char)
  user : Option UserJson

/-- Python dictionary subscript `d[key]`: raises `KeyError(key)` when the
key is absent. -/
def getKey {α : Type} (v : Option α) (key : String) : Except PyErr α :=
  match v with
  | some x => Except.ok x
  | none => Except.error (PyErr.keyError key.data)

/-- Source `embed_tweet_html` (lines 82-131).  The remote fetch
(`urllib2.urlopen` + `json.loads`, lines 93-97) is an external
collaborator and enters as the `fetch` parameter; `localDelta` is the
value of `datetime.datetime.now() - datetime.datetime.utcnow()` (line
108) in seconds.  Dictionary lookups run in the source's evaluation
order: `text` (line 102), `created_at` (line 107), then the
`format` arguments of lines 114-129 left to right. -/
def embed_tweet_html (fetch : List Char → TweetJson) (localDelta : Int)
    (tweet_url : List Char) (extra_css : Option (List Char)) :
    Except PyErr (List Char) := do
  let tweet_id ← tweet_id_from_tweet_url tweet_url
  let tweet_json := fetch tweet_id
  let rawText ← getKey tweet_json.text ("text")
  let tweet_text := wrap_user_mention_with_link (wrap_hashtag_with_link
    (wrap_http_with_link (replaceNL rawText)))
  let createdAt ← getKey tweet_json.created_at ("created_at")
  let tweet_created ←
    match timestamp_string_to_datetime createdAt with
    | some t => Except.ok t
    | none => Except.error (PyErr.typeError (("argument of type NoneType is not iterable").data))
  let tweet_easy := easy_to_read_timestamp_string (tweet_created + localDelta).toNat
  let user ← getKey tweet_json.user ("user")
  let screenName ← getKey user.screen_name ("screen_name")
  let realName ← getKey user.name ("name")
  let sourceStr ← getKey tweet_json.source ("source")
  let profilePic ← getKey user.profile_image_url ("profile_image_url")
  let bgColor ← getKey user.profile_background_color ("profile_background_color")
  let bgImage ← getKey user.profile_background_image_url ("profile_background_image_url")
  let _ ← getKey user.profile_text_color ("profile_text_color")
  let _ ← getKey user.profile_link_color ("profile_link_color")
  let _ ← getKey user.utc_offset ("utc_offset")
  let css := extra_css.getD []
  Except.ok (renderTemplate (fun f =>
    match f with
    | .id => tweet_id
    | .tweetURL => tweet_url
    | .screenName => screenName
    | .realName => realName
    | .tweetText => tweet_text
    | .source => sourceStr
    | .profilePic => profilePic
    | .profileBackgroundColor => bgColor
    | .profileBackgroundImage => bgImage
    | .timeStamp => createdAt
    | .easyTimeStamp => tweet_easy
    | .bbpBoxCss => css))

/-- Number of positions at which `pat` occurs in the subject. -/
def countOccs (pat : List Char) : List Char → Nat
  | [] => if pat.isEmpty then 1 else 0
  | c :: t => (if pat.isPrefixOf (c :: t) then 1 else 0) + countOccs pat t

/-- The fixed record served by the mocked fetch in the end-to-end check. -/
def mockUser : UserJson :=
  ⟨some (("alice").data), some (("Alice Example").data),
   some (("http://img.example/p.png").data), some (("ffffff").data),
   some (("http://img.example/bg.png").data), some (("000000").data),
   some (("0000ff").data), some (("-18000").data)⟩

def mockTweet : TweetJson :=
  ⟨some (("Hello #lean").data), some (("Wed Jun 09 18:31:55 +0000 2010").data),
   some (("web").data), some mockUser⟩

def mockFetch : List Char → TweetJson := fun _ => mockTweet

def mockUrl : List Char := ("http://twitter.com/bob/status/99").data

/-- The embed rendered from the mocked fetch (local clock at UTC). -/
def mockHtml : List Char :=
  (embed_tweet_html mockFetch 0 mockUrl none).toOption.getD []

/-- Modelled from the spec: the claim's ID-extraction pattern
`^http://\w+\.\w+/\w+/status(es)?/(\d+)$`, whose host part is any
`\w+\.\w+` (the source instead fixes the host to `twitter.com`).  Same
compilation scheme as `reMatchTweetUrl`; kept separate so the claim can be
compared against the source behaviour. -/
def specTweetUrlMatch (s : List Char) : Option (List Char) :=
  if httpLit.isPrefixOf s then
    let r := s.drop 7
    let h1 := r.takeWhile isWordChar
    let r1 := r.dropWhile isWordChar
    if h1.isEmpty then none
    else
      match r1 with
      | '.' :: r2 =>
        let h2 := r2.takeWhile isWordChar
        let r3 := r2.dropWhile isWordChar
        if h2.isEmpty then none
        else
          match r3 with
          | '/' :: r4 =>
            if (r4.takeWhile isWordChar).isEmpty then none
            else reMatchAfterUser (r4.dropWhile isWordChar)
          | _ => none
      | _ => none
  else none

/-- Mocked fetches whose records miss one expected field each. -/
def noTextFetch : List Char → TweetJson := fun _ =>
  ⟨none, some (("Wed Jun 09 18:31:55 +0000 2010").data), some (("web").data), some mockUser⟩

def noCreatedFetch : List Char → TweetJson := fun _ =>
  ⟨some (("Hi").data), none, some (("web").data), some mockUser⟩

def noUserFetch : List Char → TweetJson := fun _ =>
  ⟨some (("Hi").data), some (("Wed Jun 09 18:31:55 +0000 2010").data), some (("web").data), none⟩

def noScreenNameUser : UserJson :=
  ⟨none, some (("Alice Example").data),
   some (("http://img.example/p.png").data), some (("ffffff").data),
   some (("http://img.example/bg.png").data), some (("000000").data),
   some (("0000ff").data), some (("-18000").data)⟩

def noScreenNameFetch : List Char → TweetJson := fun _ =>
  ⟨some (("Hi").data), some (("Wed Jun 09 18:31:55 +0000 2010").data), some (("web").data),
   some noScreenNameUser⟩


/-!
chapter: Theorems

Helper lemmas, the test vectors of the source's own `unittest` classes
(lines 134-212) re-checked against the embedding, and the claim theorems.
-/

/-!
section: Identity of the passes on trigger-free text (claim C9)
-/

theorem mentionCore_eq_none {g1 t : List Char} (h : ('@' : Char) ∉ t) :
    mentionCore g1 t = none := by
  cases t with
  | nil => rfl
  | cons c u =>
    have hc : ¬(c = '@') := fun e => h (e ▸ List.mem_cons_self c u)
    simp [mentionCore, hc]

theorem matchMentionAt_eq_none {b : Bool} {s : List Char} (h : ('@' : Char) ∉ s) :
    matchMentionAt b s = none := by
  have h0 : mentionCore [] s = none := mentionCore_eq_none h
  cases s with
  | nil => cases b <;> simp [matchMentionAt, Option.orElse, h0]
  | cons c t =>
    have ht : ('@' : Char) ∉ t := fun m => h (List.mem_cons_of_mem c m)
    have h1 : mentionCore [c] t = none := mentionCore_eq_none ht
    cases b <;> simp [matchMentionAt, Option.orElse, h0, h1]

theorem hashtagCore_eq_none {g1 t : List Char} (h : ('#' : Char) ∉ t) :
    hashtagCore g1 t = none := by
  cases t with
  | nil => rfl
  | cons c u =>
    have hc : ¬(c = '#') := fun e => h (e ▸ List.mem_cons_self c u)
    simp [hashtagCore, hc]

theorem matchHashtagAt_eq_none {b : Bool} {s : List Char} (h : ('#' : Char) ∉ s) :
    matchHashtagAt b s = none := by
  have h0 : hashtagCore [] s = none := hashtagCore_eq_none h
  cases s with
  | nil => cases b <;> simp [matchHashtagAt, Option.orElse, h0]
  | cons c t =>
    have ht : ('#' : Char) ∉ t := fun m => h (List.mem_cons_of_mem c m)
    have h1 : hashtagCore [c] t = none := hashtagCore_eq_none ht
    cases b <;> simp [matchHashtagAt, Option.orElse, h0, h1]

theorem hasSubstr_cons_false {pat : List Char} {c : Char} {t : List Char}
    (h : hasSubstr pat (c :: t) = false) :
    pat.isPrefixOf (c :: t) = false ∧ hasSubstr pat t = false := by
  simpa [hasSubstr] using h

theorem httpCore_eq_none {g1 t : List Char} (h : hasSubstr httpLit t = false) :
    httpCore g1 t = none := by
  have hp : httpLit.isPrefixOf t = false := by
    cases t with
    | nil => rfl
    | cons c u => exact (hasSubstr_cons_false h).1
  simp [httpCore, hp]

theorem matchHttpAt_eq_none {b : Bool} {s : List Char} (h : hasSubstr httpLit s = false) :
    matchHttpAt b s = none := by
  have h0 : httpCore [] s = none := httpCore_eq_none h
  cases s with
  | nil => cases b <;> simp [matchHttpAt, Option.orElse, h0]
  | cons c t =>
    have h1 : httpCore [c] t = none := httpCore_eq_none (hasSubstr_cons_false h).2
    cases b <;> simp [matchHttpAt, Option.orElse, h0, h1]

/-- When the pattern matches nowhere, `re.sub` is the identity: generic
form, for any position-invariant reason `P` closed under tails. -/
theorem subScanF_id (matchAt : Bool → List Char → Option (List Char × List Char))
    (P : List Char → Prop)
    (hm : ∀ b s, P s → matchAt b s = none)
    (ht : ∀ c t, P (c :: t) → P t) :
    ∀ fuel b s, P s → subScanF matchAt fuel b s = s := by
  intro fuel
  induction fuel with
  | zero => intro b s _; rfl
  | succ n ih =>
    intro b s hP
    cases s with
    | nil => rfl
    | cons c t =>
      simp [subScanF, hm b (c :: t) hP, ih false t (ht c t hP)]

theorem takeWhile_append_of (p : Char → Bool) (w r : List Char)
    (hw : ∀ c ∈ w, p c = true) (hr : ∀ c, r.head? = some c → p c = false) :
    (w ++ r).takeWhile p = w ∧ (w ++ r).dropWhile p = r := by
  induction w with
  | nil =>
    simp only [List.nil_append]
    cases r with
    | nil => exact ⟨rfl, rfl⟩
    | cons c t =>
      have hc := hr c rfl
      exact ⟨by simp [List.takeWhile_cons, hc], by simp [List.dropWhile_cons, hc]⟩
  | cons a w ih =>
    have ha : p a = true := hw a (List.mem_cons_self a w)
    have ih' := ih (fun c hc => hw c (List.mem_cons_of_mem a hc))
    exact ⟨by simp [List.takeWhile_cons, ha, ih'.1],
           by simp [List.dropWhile_cons, ha, ih'.2]⟩

theorem dropWhile_head_false (p : Char → Bool) (l : List Char) :
    ∀ c, (l.dropWhile p).head? = some c → p c = false := by
  induction l with
  | nil => intro c h; simp at h
  | cons a t ih =>
    intro c h
    by_cases ha : p a = true
    · rw [List.dropWhile_cons, if_pos ha] at h
      exact ih c h
    · rw [List.dropWhile_cons, if_neg ha] at h
      have : a = c := by simpa using h
      simpa [← this] using ha

theorem reMatchSlashDigits_iff (r id : List Char) :
    reMatchSlashDigits r = some id ↔
      ∃ nl : List Char, (∀ c ∈ id, c.isDigit = true) ∧ id ≠ [] ∧
        (nl = [] ∨ nl = [('\n' : Char)]) ∧ r = [('/' : Char)] ++ id ++ nl := by
  constructor
  · intro h
    cases r with
    | nil => simp [reMatchSlashDigits] at h
    | cons c r5 =>
      by_cases hc : c = '/'
      · subst hc
        rw [reMatchSlashDigits, if_pos rfl] at h
        by_cases h1 : (r5.takeWhile Char.isDigit).isEmpty
        · simp [h1] at h
        rw [if_neg h1] at h
        by_cases h2 : (r5.dropWhile Char.isDigit).isEmpty = true ∨
            r5.dropWhile Char.isDigit = [('\n' : Char)]
        · rw [if_pos (by rcases h2 with h2 | h2 <;> simp [h2])] at h
          have hid : r5.takeWhile Char.isDigit = id := Option.some.inj h
          refine ⟨r5.dropWhile Char.isDigit, ?_, ?_, ?_, ?_⟩
          · intro c hcmem
            exact List.mem_takeWhile_imp (hid ▸ hcmem)
          · intro he
            exact h1 (by simp [hid, he])
          · rcases h2 with h2 | h2
            · exact Or.inl (by simpa [List.isEmpty_iff] using h2)
            · exact Or.inr h2
          · rw [← hid]
            simp [List.takeWhile_append_dropWhile]
        · rw [if_neg (by simpa using h2)] at h
          exact absurd h (by simp)
      · rw [reMatchSlashDigits, if_neg hc] at h
        exact absurd h (by simp)
  · rintro ⟨nl, hdig, hne, hnl, hr⟩
    subst hr
    have hsplit := takeWhile_append_of Char.isDigit id nl hdig
      (by
        rcases hnl with hnl | hnl <;> subst hnl
        · intro c hc; simp at hc
        · intro c hc
          have : c = '\n' := by simpa using hc.symm
          subst this; decide)
    rw [show ([('/' : Char)] ++ id ++ nl) = '/' :: (id ++ nl) from rfl]
    rw [reMatchSlashDigits, if_pos rfl, hsplit.1, hsplit.2]
    have h1 : ¬ id.isEmpty = true := by simpa [List.isEmpty_iff] using hne
    rw [if_neg h1]
    rw [if_pos (by rcases hnl with hnl | hnl <;> simp [hnl])]

theorem reMatchAfterStatus_iff (r3 id : List Char) :
    reMatchAfterStatus r3 = some id ↔
      ∃ es nl : List Char, (es = [] ∨ es = ("es").data) ∧
        (∀ c ∈ id, c.isDigit = true) ∧ id ≠ [] ∧
        (nl = [] ∨ nl = [('\n' : Char)]) ∧
        r3 = es ++ [('/' : Char)] ++ id ++ nl := by
  constructor
  · intro h
    by_cases hes : esLit.isPrefixOf r3
    · obtain ⟨rest, hr⟩ := List.isPrefixOf_iff_prefix.mp hes
      subst hr
      rw [reMatchAfterStatus, if_pos hes,
        show (2 : Nat) = esLit.length from rfl, List.drop_left] at h
      obtain ⟨nl, hdig, hne, hnl, hrest⟩ := (reMatchSlashDigits_iff rest id).mp h
      exact ⟨("es").data, nl, Or.inr rfl, hdig, hne, hnl,
        by rw [hrest]; simp [esLit, List.append_assoc]⟩
    · rw [reMatchAfterStatus, if_neg hes] at h
      obtain ⟨nl, hdig, hne, hnl, hrest⟩ := (reMatchSlashDigits_iff r3 id).mp h
      exact ⟨[], nl, Or.inl rfl, hdig, hne, hnl, by rw [hrest]; simp⟩
  · rintro ⟨es, nl, hes, hdig, hne, hnl, hr⟩
    subst hr
    rcases hes with hes | hes <;> subst hes
    · have hnp : esLit.isPrefixOf ([('/' : Char)] ++ id ++ nl) = false := rfl
      simp only [List.nil_append]
      rw [reMatchAfterStatus, if_neg (by simp only [hnp]; exact Bool.false_ne_true)]
      exact (reMatchSlashDigits_iff _ id).mpr ⟨nl, hdig, hne, hnl, rfl⟩
    · have hp : esLit.isPrefixOf (("es").data ++ [('/' : Char)] ++ id ++ nl) := by
        apply List.isPrefixOf_iff_prefix.mpr
        refine ⟨[('/' : Char)] ++ id ++ nl, ?_⟩
        simp [esLit, List.append_assoc]
      rw [reMatchAfterStatus, if_pos hp]
      have hdrop : (("es").data ++ [('/' : Char)] ++ id ++ nl).drop 2
          = [('/' : Char)] ++ id ++ nl := by
        rw [show (("es").data ++ [('/' : Char)] ++ id ++ nl)
              = ("es").data ++ ([('/' : Char)] ++ id ++ nl) by
            simp [List.append_assoc]]
        rw [show (2 : Nat) = (("es").data).length from rfl, List.drop_left]
      rw [hdrop]
      exact (reMatchSlashDigits_iff _ id).mpr ⟨nl, hdig, hne, hnl, rfl⟩

theorem reMatchAfterUser_iff (r2 id : List Char) :
    reMatchAfterUser r2 = some id ↔
      ∃ es nl : List Char, (es = [] ∨ es = ("es").data) ∧
        (∀ c ∈ id, c.isDigit = true) ∧ id ≠ [] ∧
        (nl = [] ∨ nl = [('\n' : Char)]) ∧
        r2 = ("/status").data ++ es ++ [('/' : Char)] ++ id ++ nl := by
  constructor
  · intro h
    by_cases hst : statusLit.isPrefixOf r2
    · obtain ⟨rest, hr⟩ := List.isPrefixOf_iff_prefix.mp hst
      subst hr
      rw [reMatchAfterUser, if_pos hst,
        show (7 : Nat) = statusLit.length from rfl, List.drop_left] at h
      obtain ⟨es, nl, hes, hdig, hne, hnl, hrest⟩ := (reMatchAfterStatus_iff rest id).mp h
      exact ⟨es, nl, hes, hdig, hne, hnl,
        by rw [hrest]; simp [statusLit, List.append_assoc]⟩
    · rw [reMatchAfterUser, if_neg hst] at h
      exact absurd h (by simp)
  · rintro ⟨es, nl, hes, hdig, hne, hnl, hr⟩
    subst hr
    have hp : statusLit.isPrefixOf
        (("/status").data ++ es ++ [('/' : Char)] ++ id ++ nl) := by
      apply List.isPrefixOf_iff_prefix.mpr
      refine ⟨es ++ [('/' : Char)] ++ id ++ nl, ?_⟩
      simp [statusLit, List.append_assoc]
    rw [reMatchAfterUser, if_pos hp]
    have hdrop : (("/status").data ++ es ++ [('/' : Char)] ++ id ++ nl).drop 7
        = es ++ [('/' : Char)] ++ id ++ nl := by
      rw [show (("/status").data ++ es ++ [('/' : Char)] ++ id ++ nl)
            = ("/status").data ++ (es ++ [('/' : Char)] ++ id ++ nl) by
          simp [List.append_assoc]]
      rw [show (7 : Nat) = (("/status").data).length from rfl, List.drop_left]
    rw [hdrop]
    exact (reMatchAfterStatus_iff _ id).mpr ⟨es, nl, hes, hdig, hne, hnl, rfl⟩

theorem reMatchAfterHost_iff (r1 id : List Char) :
    reMatchAfterHost r1 = some id ↔
      ∃ user es nl : List Char,
        (∀ c ∈ user, isWordChar c = true) ∧ user ≠ [] ∧
        (es = [] ∨ es = ("es").data) ∧
        (∀ c ∈ id, c.isDigit = true) ∧ id ≠ [] ∧
        (nl = [] ∨ nl = [('\n' : Char)]) ∧
        r1 = user ++ ("/status").data ++ es ++ [('/' : Char)] ++ id ++ nl := by
  constructor
  · intro h
    by_cases h1 : (r1.takeWhile isWordChar).isEmpty
    · rw [reMatchAfterHost, if_pos h1] at h
      exact absurd h (by simp)
    · rw [reMatchAfterHost, if_neg h1] at h
      obtain ⟨es, nl, hes, hdig, hne, hnl, hrest⟩ := (reMatchAfterUser_iff _ id).mp h
      refine ⟨r1.takeWhile isWordChar, es, nl, ?_, ?_, hes, hdig, hne, hnl, ?_⟩
      · intro c hc; exact List.mem_takeWhile_imp hc
      · simpa [List.isEmpty_iff] using h1
      · conv_lhs => rw [← List.takeWhile_append_dropWhile isWordChar r1]
        rw [hrest]; simp [List.append_assoc]
  · rintro ⟨user, es, nl, huw, hune, hes, hdig, hne, hnl, hr⟩
    subst hr
    have hsplit := takeWhile_append_of isWordChar user
      (("/status").data ++ es ++ [('/' : Char)] ++ id ++ nl) huw
      (by
        intro c hc
        have : c = '/' := by
          have : (("/status").data ++ es ++ [('/' : Char)] ++ id ++ nl).head?
              = some '/' := by simp [List.append_assoc]
          rw [this] at hc; exact (Option.some.inj hc).symm
        subst this; decide)
    have hsplit1 : ((user ++ (("/status").data ++ es ++ [('/' : Char)] ++ id ++ nl)).takeWhile
        isWordChar) = user := by
      have := hsplit.1
      simpa [List.append_assoc] using this
    have hsplit2 : ((user ++ (("/status").data ++ es ++ [('/' : Char)] ++ id ++ nl)).dropWhile
        isWordChar) = ("/status").data ++ es ++ [('/' : Char)] ++ id ++ nl := by
      have := hsplit.2
      simpa [List.append_assoc] using this
    rw [reMatchAfterHost]
    rw [show (user ++ ("/status").data ++ es ++ [('/' : Char)] ++ id ++ nl)
          = user ++ (("/status").data ++ es ++ [('/' : Char)] ++ id ++ nl) by
        simp [List.append_assoc]]
    rw [hsplit1, hsplit2, if_neg (by simpa [List.isEmpty_iff] using hune)]
    exact (reMatchAfterUser_iff _ id).mpr ⟨es, nl, hes, hdig, hne, hnl, by simp [List.append_assoc]⟩

/-- The accepted strings of the source pattern are exactly those of
`TweetUrlShape`, with the digit group as the extracted ID. -/
theorem reMatchTweetUrl_iff (s id : List Char) :
    reMatchTweetUrl s = some id ↔ TweetUrlShape s id := by
  constructor
  · intro h
    by_cases hu : urlLit.isPrefixOf s
    · obtain ⟨r1, hr⟩ := List.isPrefixOf_iff_prefix.mp hu
      subst hr
      rw [reMatchTweetUrl, if_pos hu,
        show (19 : Nat) = urlLit.length from rfl, List.drop_left] at h
      obtain ⟨user, es, nl, huw, hune, hes, hdig, hne, hnl, hrest⟩ :=
        (reMatchAfterHost_iff r1 id).mp h
      exact ⟨user, es, nl, huw, hune, hdig, hne, hes, hnl,
        by rw [hrest]; simp [urlLit, List.append_assoc]⟩
    · rw [reMatchTweetUrl, if_neg hu] at h
      exact absurd h (by simp)
  · rintro ⟨user, es, nl, huw, hune, hdig, hne, hes, hnl, hr⟩
    subst hr
    have hp : urlLit.isPrefixOf (("http://twitter.com/").data ++ user ++ ("/status").data
        ++ es ++ [('/' : Char)] ++ id ++ nl) := by
      apply List.isPrefixOf_iff_prefix.mpr
      refine ⟨user ++ ("/status").data ++ es ++ [('/' : Char)] ++ id ++ nl, ?_⟩
      simp [urlLit, List.append_assoc]
    rw [reMatchTweetUrl, if_pos hp]
    have hdrop : ((("http://twitter.com/").data ++ user ++ ("/status").data ++ es
        ++ [('/' : Char)] ++ id ++ nl).drop 19)
        = user ++ ("/status").data ++ es ++ [('/' : Char)] ++ id ++ nl := by
      rw [show ((("http://twitter.com/").data ++ user ++ ("/status").data ++ es
            ++ [('/' : Char)] ++ id ++ nl))
            = ("http://twitter.com/").data ++ (user ++ ("/status").data ++ es
              ++ [('/' : Char)] ++ id ++ nl) by simp [List.append_assoc]]
      rw [show (19 : Nat) = (("http://twitter.com/").data).length from rfl, List.drop_left]
    rw [hdrop]
    exact (reMatchAfterHost_iff _ id).mpr ⟨user, es, nl, huw, hune, hes, hdig, hne, hnl, rfl⟩

/-- Success of `tweet_id_from_tweet_url` is exactly `TweetUrlShape`. -/
theorem tweet_id_ok_iff (s id : List Char) :
    tweet_id_from_tweet_url s = Except.ok id ↔ TweetUrlShape s id := by
  rw [← reMatchTweetUrl_iff]
  unfold tweet_id_from_tweet_url
  cases h : reMatchTweetUrl s <;> simp

/-- On a non-matching input the source raises
`ValueError('Invalid tweet URL: {0}'.format(tweet_url))`: the error value
carries the offending input. -/
theorem tweet_id_err (s : List Char) (h : reMatchTweetUrl s = none) :
    tweet_id_from_tweet_url s
      = Except.error (PyErr.valueError (("Invalid tweet URL: ").data ++ s)) := by
  unfold tweet_id_from_tweet_url
  rw [h]



/-!
Vectors of `TestWrapUserMentionWithLink`, `TestWrapHashtagWithLink` and
`TestWrapHttpWithLink`.
-/

theorem src_test_wrap_mention_boundary : wrap_user_mention_with_link (("Hey @user: hey").data)
    = ("Hey <a href=\"http://twitter.com/user\">@user</a>: hey").data := by decide
theorem src_test_wrap_hashtag_bang : wrap_hashtag_with_link (("Total #fail!").data)
    = ("Total <a href=\"http://twitter.com/search?q=fail\">#fail</a>!").data := by decide
theorem src_test_wrap_http_bare : wrap_http_with_link (("http://foo").data)
    = ("<a href=\"http://foo\">http://foo</a>").data := by decide
theorem src_test_wrap_http_sentence : wrap_http_with_link (("See http://media.twitter.com/blackbird-pie/ for more info").data)
    = ("See <a href=\"http://media.twitter.com/blackbird-pie/\">http://media.twitter.com/blackbird-pie/</a> for more info").data := by decide
theorem src_test_wrap_mention_two : wrap_user_mention_with_link (("@foo and @bar").data)
    = ("<a href=\"http://twitter.com/foo\">@foo</a> and <a href=\"http://twitter.com/bar\">@bar</a>").data := by decide
theorem src_test_wrap_hashtag_two : wrap_hashtag_with_link (("#qiz #quz").data)
    = ("<a href=\"http://twitter.com/search?q=qiz\">#qiz</a> <a href=\"http://twitter.com/search?q=quz\">#quz</a>").data := by decide

/-!
Vectors of `TestTimestampStringToDatetime`, `TestEasyToReadTimestampString`
and `TestTweetIdFromTweetUrl`, plus the behaviour of `$` on trailing
newlines.
-/

theorem src_test_timestamp_utc : timestamp_string_to_datetime (("Wed Jun 09 18:31:55 +0000 2010").data)
    = some (instantOfCivil 2010 6 9 18 31 55) := by decide
theorem src_test_timestamp_plus0200 : timestamp_string_to_datetime (("Mon Jan 11 5:01:00 +0200 1998").data)
    = some (instantOfCivil 1998 1 11 3 1 0) := by decide
theorem src_test_timestamp_minus0500 : timestamp_string_to_datetime (("Tue Nov 23 23:01:00 -0500 2004").data)
    = some (instantOfCivil 2004 11 24 4 1 0) := by decide
theorem src_test_easy_2010 : easy_to_read_timestamp_string (instantOfCivil 2010 6 9 18 31 55).toNat
    = ("6:31 PM Wed Jun 9, 2010").data := by decide
theorem src_test_easy_1998 : easy_to_read_timestamp_string (instantOfCivil 1998 1 11 3 1 0).toNat
    = ("3:01 AM Sun Jan 11, 1998").data := by decide
theorem src_test_easy_2004 : easy_to_read_timestamp_string (instantOfCivil 2004 11 23 23 1 0).toNat
    = ("11:01 PM Tue Nov 23, 2004").data := by decide

theorem src_test_id_ok_status : tweet_id_from_tweet_url (("http://twitter.com/foo/status/1234567890").data)
    = Except.ok (("1234567890").data) := by rfl
theorem src_test_id_ok_statuses : tweet_id_from_tweet_url (("http://twitter.com/bar99/statuses/555555").data)
    = Except.ok (("555555").data) := by rfl
theorem src_test_id_err_not_a_url : tweet_id_from_tweet_url (("not a url").data)
    = Except.error (PyErr.valueError (("Invalid tweet URL: not a url").data)) := by rfl
theorem src_test_id_err_missing_user : tweet_id_from_tweet_url (("http://twitter.com/status/2345678").data)
    = Except.error (PyErr.valueError (("Invalid tweet URL: http://twitter.com/status/2345678").data)) := by rfl
theorem src_test_id_err_no_digits : tweet_id_from_tweet_url (("http://twitter.com/foo/status/").data)
    = Except.error (PyErr.valueError (("Invalid tweet URL: http://twitter.com/foo/status/").data)) := by rfl
theorem src_test_id_err_trailing_space : tweet_id_from_tweet_url (("http://twitter.com/foo/status/ ").data)
    = Except.error (PyErr.valueError (("Invalid tweet URL: http://twitter.com/foo/status/ ").data)) := by rfl
theorem src_test_id_newline_ok : reMatchTweetUrl (("http://twitter.com/foo/status/123\n").data)
    = some (("123").data) := by decide
theorem src_test_id_two_newlines_err : reMatchTweetUrl (("http://twitter.com/foo/status/123\n\n").data)
    = none := by decide


/-!
chapter: Claims
-/

/-- C1 counterexample: on `"x http://a/@b"` the body the source produces
(raw-URL pass first, mention pass last) differs from the claimed
composition `wrap_http(wrap_hashtag(wrap_mention(text)))`. -/
theorem linkify_order_claim_false :
    linkifyBody (("x http://a/@b").data) ≠
      wrap_http_with_link (wrap_hashtag_with_link
        (wrap_user_mention_with_link (replaceNL (("x http://a/@b").data)))) := by
  decide

/-- C1 (amended): the three passes are applied to the newline-collapsed
body in the fixed order raw-URL pass first, then tag pass, then mention
pass last: the linkified body equals
`wrap_mention(wrap_hashtag(wrap_http(text)))`; on
`"Hey @user and #fail and http://x.y/z"` all three passes fire. -/
theorem linkify_pass_order :
    (∀ t : List Char, linkifyBody t
      = wrap_user_mention_with_link (wrap_hashtag_with_link
          (wrap_http_with_link (replaceNL t)))) ∧
    linkifyBody (("Hey @user and #fail and http://x.y/z").data)
      = ("Hey <a href=\"http://twitter.com/user\">@user</a> and <a href=\"http://twitter.com/search?q=fail\">#fail</a> and <a href=\"http://x.y/z\">http://x.y/z</a>").data := by
  exact ⟨fun t => rfl, by decide⟩

/-- C2 counterexample: `"http://example.com/foo/status/123"` matches the
claim's pattern (any `\w+\.\w+` host) with digit group `123`, yet the
source, whose pattern fixes the host to `twitter.com`, rejects it with
`ValueError`. -/
theorem id_extraction_host_claim_false :
    specTweetUrlMatch (("http://example.com/foo/status/123").data)
        = some (("123").data) ∧
      tweet_id_from_tweet_url (("http://example.com/foo/status/123").data)
        = Except.error (PyErr.valueError
            (("Invalid tweet URL: http://example.com/foo/status/123").data)) := by
  exact ⟨rfl, rfl⟩

/-- C2 (amended): extraction succeeds with the digit group as ID exactly
on the strings of shape
`http://twitter.com/<word>/status(es)?/<digits>` (host fixed to
`twitter.com`; Python's `$` also admits one final newline), and on every
other input it fails with a `ValueError` carrying the offending input. -/
theorem id_extraction_characterization (s id : List Char) :
    (tweet_id_from_tweet_url s = Except.ok id ↔ TweetUrlShape s id) ∧
    (reMatchTweetUrl s = none →
      tweet_id_from_tweet_url s
        = Except.error (PyErr.valueError (("Invalid tweet URL: ").data ++ s))) :=
  ⟨tweet_id_ok_iff s id, tweet_id_err s⟩

/-- C2 witness: the characterization at concrete inputs — a matching URL
(via the shape) and a failing one (via the error branch). -/
theorem id_extraction_characterization_witness :
    tweet_id_from_tweet_url (("http://twitter.com/foo/status/1234567890").data)
        = Except.ok (("1234567890").data) ∧
      tweet_id_from_tweet_url (("not a url").data)
        = Except.error (PyErr.valueError (("Invalid tweet URL: not a url").data)) := by
  constructor
  · exact (id_extraction_characterization
        (("http://twitter.com/foo/status/1234567890").data) (("1234567890").data)).1.mpr
      ⟨("foo").data, [], [], by decide, by decide, by decide, by decide,
        Or.inl rfl, Or.inl rfl, by decide⟩
  · exact (id_extraction_characterization (("not a url").data) []).2 (by rfl)

/-- C3 counterexample: on `"http://a/@b"` the mention `@b` inside the raw
URL IS rewritten into a mention anchor by the final output (the mention
pass runs after the URL pass), contradicting the claim. -/
theorem no_double_wrap_claim_false :
    hasSubstr (mentionAnchor (("b").data)) (linkifyBody (("http://a/@b").data)) = true := by
  decide

/-- C3 (amended): the composition does double-wrap: since the mention pass
runs last, a mention token inside a raw `http://` URL is turned into a
mention anchor nested inside the URL anchor (in both its `href` and its
link text). -/
theorem double_wrap_inside_url :
    linkifyBody (("http://a/@b").data)
      = ("<a href=\"http://a/<a href=\"http://twitter.com/b\">@b</a>\">http://a/<a href=\"http://twitter.com/b\">@b</a></a>").data := by
  decide

/-- C4 counterexample: with the mocked fetch the render succeeds, but the
class name `bbpBox99` does not occur exactly once (the template uses it
both in the style rule and in the `div` class). -/
theorem embed_counts_claim_false :
    embed_tweet_html mockFetch 0 mockUrl none = Except.ok mockHtml ∧
      countOccs (("bbpBox99").data) mockHtml ≠ 1 := by
  exact ⟨rfl, by decide⟩

/-- C4 (amended): with the mocked fetch the rendered embed contains
`bbpBox<ID>` exactly twice (style rule and `div` class), the linkified
body exactly once, and the author's screen name exactly three times (two
profile-link `href`s and the visible name). -/
theorem embed_render_counts :
    embed_tweet_html mockFetch 0 mockUrl none = Except.ok mockHtml ∧
      countOccs (("bbpBox99").data) mockHtml = 2 ∧
      countOccs (("Hello <a href=\"http://twitter.com/search?q=lean\">#lean</a>").data)
          mockHtml = 1 ∧
      countOccs (("alice").data) mockHtml = 3 := by
  exact ⟨rfl, by decide, by decide, by decide⟩

/-- C5: timestamp parsing yields the true instant: the two fixed-offset
examples land on 2010-06-09T18:31:55Z and 1998-01-11T03:01:00Z, and in
general the result is the parsed civil time minus the parsed UTC offset
(the offset is never dropped). -/
theorem timestamp_parsing_instant :
    timestamp_string_to_datetime (("Wed Jun 09 18:31:55 +0000 2010").data)
        = some (instantOfCivil 2010 6 9 18 31 55) ∧
      timestamp_string_to_datetime (("Mon Jan 11 5:01:00 +0200 1998").data)
        = some (instantOfCivil 1998 1 11 3 1 0) ∧
      ∀ (text : List Char) (p : ParsedTz), parsedate_tz text = some p →
        timestamp_string_to_datetime text
          = some (instantOfCivil p.year p.month p.day p.hour p.minute p.second
              - p.tzoffset) := by
  refine ⟨by decide, by decide, ?_⟩
  intro text p h
  simp [timestamp_string_to_datetime, h]

/-- C5 witness: the general offset identity at a concrete negative-offset
input. -/
theorem timestamp_parsing_instant_witness :
    timestamp_string_to_datetime (("Tue Nov 23 23:01:00 -0500 2004").data)
      = some (instantOfCivil 2004 11 23 23 1 0 - (-18000 : Int)) :=
  timestamp_parsing_instant.2.2 (("Tue Nov 23 23:01:00 -0500 2004").data)
    ⟨2004, 11, 23, 23, 1, 0, (-18000 : Int)⟩ (by rfl)

/-- C6: the easy-read formatter is the generic leading-zero-stripping rule
applied to `strftime('%I:%M %p %a %b %d, %Y')`, and on the two given local
date-times it produces `"6:31 PM Wed Jun 9, 2010"` and
`"3:01 AM Sun Jan 11, 1998"` (the minute keeps its leading zero). -/
theorem easy_read_formatting :
    (∀ n : Nat, easy_to_read_timestamp_string n = subZeros (strftimeEasy n)) ∧
      easy_to_read_timestamp_string (instantOfCivil 2010 6 9 18 31 55).toNat
        = ("6:31 PM Wed Jun 9, 2010").data ∧
      easy_to_read_timestamp_string (instantOfCivil 1998 1 11 3 1 0).toNat
        = ("3:01 AM Sun Jan 11, 1998").data := by
  exact ⟨fun n => rfl, by decide, by decide⟩

/-- C7 counterexample: a record with no `text` field makes the render fail
with Python's `KeyError('text')` — an uncaught builtin exception, not one
of the spec's `FetchError`/`MalformedRecord` kinds. -/
theorem missing_field_error_kind_claim_false :
    embed_tweet_html noTextFetch 0 mockUrl none
        = Except.error (PyErr.keyError (("text").data)) ∧
      PyErr.isSpecFailureKind (PyErr.keyError (("text").data)) = false := by
  exact ⟨rfl, rfl⟩

/-- C7 (amended): a missing expected field aborts the whole render by
propagating the builtin `KeyError` that names the missing key — no
`FetchError`/`MalformedRecord` kind exists in the code and no partial
output is produced (the failure is the only result). -/
theorem missing_field_propagates_keyerror :
    embed_tweet_html noCreatedFetch 0 mockUrl none
        = Except.error (PyErr.keyError (("created_at").data)) ∧
      embed_tweet_html noUserFetch 0 mockUrl none
        = Except.error (PyErr.keyError (("user").data)) ∧
      embed_tweet_html noScreenNameFetch 0 mockUrl none
        = Except.error (PyErr.keyError (("screen_name").data)) := by
  exact ⟨rfl, rfl, rfl⟩

/-- C8 counterexample: `str.replace('\n', ' ')` maps each newline to one
space, so the two-newline run in `"a\n\nb"` becomes two spaces, not the
single space the claim requires. -/
theorem newline_run_collapse_claim_false :
    replaceNL (("a\n\nb").data) ≠ ("a b").data ∧
      replaceNL (("a\n\nb").data) = ("a  b").data := by
  exact ⟨by decide, by decide⟩

/-- C8 (amended): before linkification every newline character of the body
is replaced by exactly one space: the text handed to the passes contains
no newline, its length is unchanged, and its space count grows by exactly
the newline count (so a run of k newlines becomes k spaces). -/
theorem newline_replacement (s : List Char) :
    ('\n' : Char) ∉ replaceNL s ∧
      (replaceNL s).length = s.length ∧
      (replaceNL s).count ' ' = s.count ' ' + s.count '\n' := by
  induction s with
  | nil => exact ⟨by simp [replaceNL], rfl, rfl⟩
  | cons c t ih =>
    have hface : replaceNL (c :: t) = (if c = '\n' then ' ' else c) :: replaceNL t := rfl
    refine ⟨?_, ?_, ?_⟩
    · rw [hface]
      have hhead : (if c = '\n' then ' ' else c) ≠ '\n' := by
        by_cases hc : c = '\n'
        · simp only [if_pos hc]; decide
        · simpa [if_neg hc] using hc
      intro hmem
      rcases List.mem_cons.mp hmem with hm | hm
      · exact hhead hm.symm
      · exact ih.1 hm
    · rw [hface]
      simpa using ih.2.1
    · rw [hface]
      by_cases hc : c = '\n' <;>
        simp [hc, List.count_cons, ih.2.2] <;> omega

/-- C9: every string without a trigger (`@`, `#`, or the substring
`http://`) is a fixed point of each of the three linkify passes. -/
theorem linkify_identity_on_trigger_free (s : List Char)
    (h1 : ('@' : Char) ∉ s) (h2 : ('#' : Char) ∉ s)
    (h3 : hasSubstr httpLit s = false) :
    wrap_user_mention_with_link s = s ∧ wrap_hashtag_with_link s = s ∧
      wrap_http_with_link s = s := by
  refine ⟨?_, ?_, ?_⟩
  · exact subScanF_id matchMentionAt (fun t => ('@' : Char) ∉ t)
      (fun b t h => matchMentionAt_eq_none h)
      (fun c t h m => h (List.mem_cons_of_mem c m)) s.length true s h1
  · exact subScanF_id matchHashtagAt (fun t => ('#' : Char) ∉ t)
      (fun b t h => matchHashtagAt_eq_none h)
      (fun c t h m => h (List.mem_cons_of_mem c m)) s.length true s h2
  · exact subScanF_id matchHttpAt (fun t => hasSubstr httpLit t = false)
      (fun b t h => matchHttpAt_eq_none h)
      (fun c t h => (hasSubstr_cons_false h).2) s.length true s h3

/-- C9 witness: the identity at a concrete trigger-free string. -/
theorem linkify_identity_witness :
    wrap_user_mention_with_link (("Nothing to wrap").data) = ("Nothing to wrap").data ∧
      wrap_hashtag_with_link (("Nothing to wrap").data) = ("Nothing to wrap").data ∧
      wrap_http_with_link (("Nothing to wrap").data) = ("Nothing to wrap").data :=
  linkify_identity_on_trigger_free (("Nothing to wrap").data)
    (by decide) (by decide) (by decide)

/-- C10 counterexample: extraction succeeds on
`"http://twitter.com/foo/status/123\n"` (Python's `$` admits the final
newline), yet appending one more newline makes it fail — so success is
not always preserved by appending a newline. -/
theorem trailing_newline_claim_false :
    tweet_id_from_tweet_url (("http://twitter.com/foo/status/123\n").data)
        = Except.ok (("123").data) ∧
      tweet_id_from_tweet_url (("http://twitter.com/foo/status/123\n\n").data)
        = Except.error (PyErr.valueError
            (("Invalid tweet URL: http://twitter.com/foo/status/123\n\n").data)) := by
  exact ⟨rfl, rfl⟩

/-- C10 (amended): if extraction succeeds on `u` and `u` does not already
end in a newline, then extraction on `u` followed by one newline succeeds
with the same ID; a trailing space still fails. -/
theorem trailing_newline_accepted :
    (∀ s id : List Char, tweet_id_from_tweet_url s = Except.ok id →
      s.getLast? ≠ some '\n' →
      tweet_id_from_tweet_url (s ++ [('\n' : Char)]) = Except.ok id) ∧
    tweet_id_from_tweet_url (("http://twitter.com/baz/status/5 ").data)
      = Except.error (PyErr.valueError
          (("Invalid tweet URL: http://twitter.com/baz/status/5 ").data)) := by
  constructor
  · intro s id hok hlast
    obtain ⟨user, es, nl, huw, hune, hdig, hne, hes, hnl, hr⟩ :=
      (tweet_id_ok_iff s id).mp hok
    rcases hnl with hnl | hnl
    · subst hnl
      apply (tweet_id_ok_iff _ id).mpr
      refine ⟨user, es, [('\n' : Char)], huw, hune, hdig, hne, hes, Or.inr rfl, ?_⟩
      rw [hr]
      simp [List.append_assoc]
    · exfalso
      apply hlast
      subst hnl
      rw [hr, show (("http://twitter.com/").data ++ user ++ ("/status").data ++ es
            ++ [('/' : Char)] ++ id ++ [('\n' : Char)])
          = (("http://twitter.com/").data ++ user ++ ("/status").data ++ es
            ++ [('/' : Char)] ++ id) ++ [('\n' : Char)] by simp [List.append_assoc]]
      exact List.getLast?_concat _
  · rfl

/-- C10 witness: the amended statement at a concrete URL with no trailing
newline. -/
theorem trailing_newline_accepted_witness :
    tweet_id_from_tweet_url ((("http://twitter.com/bar99/statuses/555555").data)
        ++ [('\n' : Char)]) = Except.ok (("555555").data) :=
  trailing_newline_accepted.1 (("http://twitter.com/bar99/statuses/555555").data)
    (("555555").data) (by rfl) (by decide)
